import Mathlib

/-!
Shallow embedding of the order-creation orchestration of the
`ap-itmo-2026` services (src/order-service/app.py and
src/notification-service/app.py).

Each Flask handler becomes a pure function from the request, the current
store contents, the timestamp produced by `utc_now_iso()`, and the raw
outcomes of the outbound HTTP calls, to a response value and the new
store contents.  SQLite tables become explicit lists of rows plus the
AUTOINCREMENT counter.  The `requests` library is modelled by an
`HttpOutcome` parameter: either a completed response (status code and
body text) or a transport failure (connection error / timeout) carrying
the exception text, exactly the two cases the handlers distinguish.
-/

namespace OrderSvc

/-- A JSON scalar as the handlers receive it from `request.get_json()`:
absent/null, an integer, or a string.  Other JSON types (floats, bools,
arrays, objects) are outside this model; the handlers under study only
ever branch on these three shapes. -/
inductive PyVal where
  | none
  | int (n : Int)
  | str (s : String)
deriving DecidableEq

/-- Python `str.strip()`: remove leading and trailing whitespace.
Implemented over the character list so that it evaluates by kernel
reduction (ASCII whitespace; Python also strips a few rarer
whitespace characters, which no claim depends on). -/
def pyStrip (s : String) : String :=
  String.mk (((s.data.dropWhile Char.isWhitespace).reverse.dropWhile Char.isWhitespace).reverse)

/-- Value of a list of decimal digit characters. -/
def digitsVal (cs : List Char) : Nat :=
  cs.foldl (fun acc c => 10 * acc + (c.toNat - 48)) 0

/-- Python `int(str)`: strip surrounding whitespace, then an optional
sign followed by at least one decimal digit; anything else raises
`ValueError` (modelled as `none`).  Underscore digit grouping is not
modelled; no claim depends on it. -/
def pyIntOfStr (s : String) : Option Int :=
  match (pyStrip s).data with
  | [] => Option.none
  | c :: rest =>
    if c = '-' then
      if rest ≠ [] ∧ rest.all Char.isDigit then some (-(digitsVal rest : Int))
      else Option.none
    else if c = '+' then
      if rest ≠ [] ∧ rest.all Char.isDigit then some ((digitsVal rest : Int))
      else Option.none
    else if (c :: rest).all Char.isDigit then some ((digitsVal (c :: rest) : Int))
    else Option.none

/-- Python `int(x)` on the covered values: `int` of an integer is itself,
`int` of a string parses a (whitespace-trimmed, optionally signed) decimal
numeral and raises `ValueError` otherwise, `int(None)` raises `TypeError`.
The handlers catch both exceptions, so a raise is modelled as `none`. -/
def pyInt : PyVal → Option Int
  | PyVal.none => Option.none
  | PyVal.int n => some n
  | PyVal.str s => pyIntOfStr s

/-- Python `str(x)` on the covered values. -/
def pyStr : PyVal → String
  | PyVal.none => "None"
  | PyVal.int n => toString n
  | PyVal.str s => s

/-- One row of the `orders` table (schema at src/order-service/app.py:51-58). -/
structure Order where
  id : Nat
  user_id : Int
  item : String
  amount : Int
  status : String
  created_at : String
deriving DecidableEq

/-- The `orders` table: its rows plus the AUTOINCREMENT counter, which
SQLite keeps strictly increasing (deleted ids are never reused). -/
structure Store where
  nextId : Nat
  rows : List Order
deriving DecidableEq

/-- The freshly created table: no rows, first assigned id is 1. -/
def Store.empty : Store := ⟨1, []⟩

/-- Point lookup `SELECT ... FROM orders WHERE id = ?` + `fetchone()`. -/
def findRow (s : Store) (oid : Nat) : Option Order :=
  s.rows.find? (fun r => r.id == oid)

/-- Outcome of one outbound HTTP call as the caller observes it: a
completed response with status code and body text, or a
`requests.RequestException` (connection error, timeout) whose text is
`details`. -/
inductive HttpOutcome where
  | resp (status : Nat) (text : String)
  | transportError (details : String)
deriving DecidableEq

/-- Characters `json.loads` treats as insignificant whitespace. -/
def jsonWs (c : Char) : Bool := c = ' ' || c = '\t' || c = '\n' || c = '\r'

/-- Hexadecimal digit, for \uXXXX string escapes. -/
def isHexDigit (c : Char) : Bool :=
  c.isDigit || ('a' ≤ c && c ≤ 'f') || ('A' ≤ c && c ≤ 'F')

/-- One or more decimal digits; returns the remaining input. -/
def jsonDigits : List Char → Option (List Char)
  | c :: rest => if c.isDigit then some (rest.dropWhile Char.isDigit) else Option.none
  | [] => Option.none

/-- Optional exponent part of a JSON number. -/
def jsonExp : List Char → Option (List Char)
  | 'e' :: rest =>
    match rest with
    | '+' :: rest2 => jsonDigits rest2
    | '-' :: rest2 => jsonDigits rest2
    | _ => jsonDigits rest
  | 'E' :: rest =>
    match rest with
    | '+' :: rest2 => jsonDigits rest2
    | '-' :: rest2 => jsonDigits rest2
    | _ => jsonDigits rest
  | cs => some cs

/-- Optional fraction, then optional exponent. -/
def jsonFrac : List Char → Option (List Char)
  | '.' :: rest =>
    match jsonDigits rest with
    | some rest2 => jsonExp rest2
    | Option.none => Option.none
  | cs => jsonExp cs

/-- A JSON number after the optional minus sign: integer part, then
optional fraction and exponent.  A leading 0 followed by more digits is
not special-cased here: the extra digits are left in the remaining
input and make the enclosing document malformed, matching json.loads
rejecting "01". -/
def jsonNumberRest : List Char → Option (List Char)
  | '0' :: rest => jsonFrac rest
  | c :: rest => if c.isDigit then jsonFrac (rest.dropWhile Char.isDigit) else Option.none
  | [] => Option.none

mutual

/-- One JSON value at the head of the input (leading whitespace already
skipped); returns the input after it, or `none` if malformed.  Besides
RFC 8259, the `NaN`/`Infinity`/`-Infinity` tokens json.loads accepts by
default are included.  `fuel` bounds the recursion depth;
`classifyJson` supplies more fuel than any input can consume (Python
itself aborts very deep nesting with a RecursionError, which the
service also surfaces as a 500). -/
def jsonValue : Nat → List Char → Option (List Char)
  | 0, _ => Option.none
  | fuel + 1, cs =>
    match cs with
    | '{' :: rest => jsonObjectRest fuel (rest.dropWhile jsonWs)
    | '[' :: rest => jsonArrayRest fuel (rest.dropWhile jsonWs)
    | '"' :: rest => jsonStringRest fuel rest
    | 't' :: 'r' :: 'u' :: 'e' :: rest => some rest
    | 'f' :: 'a' :: 'l' :: 's' :: 'e' :: rest => some rest
    | 'n' :: 'u' :: 'l' :: 'l' :: rest => some rest
    | 'N' :: 'a' :: 'N' :: rest => some rest
    | 'I' :: 'n' :: 'f' :: 'i' :: 'n' :: 'i' :: 't' :: 'y' :: rest => some rest
    | '-' :: 'I' :: 'n' :: 'f' :: 'i' :: 'n' :: 'i' :: 't' :: 'y' :: rest => some rest
    | '-' :: rest => jsonNumberRest rest
    | c :: rest => if c.isDigit then jsonNumberRest (c :: rest) else Option.none
    | [] => Option.none

/-- Object body after `{` and whitespace: an immediate `}` or members. -/
def jsonObjectRest : Nat → List Char → Option (List Char)
  | 0, _ => Option.none
  | fuel + 1, cs =>
    match cs with
    | '}' :: rest => some rest
    | _ => jsonMembers fuel cs

/-- One or more `"key": value` members separated by commas, ending at
`}`. -/
def jsonMembers : Nat → List Char → Option (List Char)
  | 0, _ => Option.none
  | fuel + 1, cs =>
    match cs with
    | '"' :: rest =>
      match jsonStringRest fuel rest with
      | Option.none => Option.none
      | some afterKey =>
        match afterKey.dropWhile jsonWs with
        | ':' :: afterColon =>
          match jsonValue fuel (afterColon.dropWhile jsonWs) with
          | Option.none => Option.none
          | some afterVal =>
            match afterVal.dropWhile jsonWs with
            | ',' :: afterComma => jsonMembers fuel (afterComma.dropWhile jsonWs)
            | '}' :: rest2 => some rest2
            | _ => Option.none
        | _ => Option.none
    | _ => Option.none

/-- Array body after `[` and whitespace: an immediate `]` or elements. -/
def jsonArrayRest : Nat → List Char → Option (List Char)
  | 0, _ => Option.none
  | fuel + 1, cs =>
    match cs with
    | ']' :: rest => some rest
    | _ => jsonElements fuel cs

/-- One or more values separated by commas, ending at `]`. -/
def jsonElements : Nat → List Char → Option (List Char)
  | 0, _ => Option.none
  | fuel + 1, cs =>
    match jsonValue fuel cs with
    | Option.none => Option.none
    | some afterVal =>
      match afterVal.dropWhile jsonWs with
      | ',' :: afterComma => jsonElements fuel (afterComma.dropWhile jsonWs)
      | ']' :: rest => some rest
      | _ => Option.none

/-- String body after the opening quote: RFC 8259 escapes; the default
strict mode of json.loads rejects raw control characters below 0x20. -/
def jsonStringRest : Nat → List Char → Option (List Char)
  | 0, _ => Option.none
  | fuel + 1, cs =>
    match cs with
    | '"' :: rest => some rest
    | '\\' :: e :: rest =>
      if e = '"' ∨ e = '\\' ∨ e = '/' ∨ e = 'b' ∨ e = 'f' ∨ e = 'n' ∨ e = 'r' ∨ e = 't' then
        jsonStringRest fuel rest
      else if e = 'u' then
        match rest with
        | a :: b :: c :: d :: rest2 =>
          if isHexDigit a && isHexDigit b && isHexDigit c && isHexDigit d then
            jsonStringRest fuel rest2
          else Option.none
        | _ => Option.none
      else Option.none
    | c :: rest => if c.toNat < 32 then Option.none else jsonStringRest fuel rest
    | [] => Option.none

end

/-- Outcome of `resp.json()` on a 200 body, at the granularity
`create_order` observes: the parse raises `json.JSONDecodeError`
(malformed), yields `None` (the document is the token `null`), or
yields any other value. -/
inductive JsonParse where
  | malformed
  | null
  | value
deriving DecidableEq

/-- Classification of a 200 response body by `resp.json()`
(src/order-service/app.py:118): skip surrounding JSON whitespace,
parse one JSON document, reject trailing input.  A valid document
yields `None` exactly when it is the token `null`.  The fuel
`4 * body.length + 16` exceeds any possible recursion depth, since
within any four nested calls at least one input character is
consumed. -/
def classifyJson (body : String) : JsonParse :=
  let cs := body.data.dropWhile jsonWs
  match jsonValue (4 * body.length + 16) cs with
  | Option.none => JsonParse.malformed
  | some rest =>
    if (rest.dropWhile jsonWs).isEmpty then
      match cs with
      | 'n' :: 'u' :: 'l' :: 'l' :: _ => JsonParse.null
      | _ => JsonParse.value
    else JsonParse.malformed

/-- Result of the user-existence check as `create_order` observes it. -/
inductive FetchResult where
  | found
  | absent
  | unavailable (service details : String)
  | badResponse (service : String) (status : Nat) (body : String)
  | decodeError
deriving DecidableEq

/-- `fetch_user` (src/order-service/app.py:108-118): a transport failure
raises `UpstreamUnavailable("user-service", str(exc))`; a completed 404
returns `None` (absent); any other non-200 status raises
`UpstreamBadResponse("user-service", status, body)`; on a 200 the
function returns `resp.json()`, which is outside the `try` block: a
malformed body raises `json.JSONDecodeError`, which propagates uncaught
(`decodeError`, a 500 at the caller); a body that is the JSON document
`null` returns `None`, indistinguishable to the caller from a 404
(`absent`); any other body returns a non-null payload (`found`). -/
def fetch_user (h : HttpOutcome) : FetchResult :=
  match h with
  | HttpOutcome.transportError d => FetchResult.unavailable "user-service" d
  | HttpOutcome.resp code text =>
    if code = 404 then FetchResult.absent
    else if code ≠ 200 then FetchResult.badResponse "user-service" code text
    else
      match classifyJson text with
      | JsonParse.malformed => FetchResult.decodeError
      | JsonParse.null => FetchResult.absent
      | JsonParse.value => FetchResult.found

/-- `send_notification` (src/order-service/app.py:120-133): returns
`(delivered, error detail)` and never raises — a transport exception
becomes `(False, str(exc))`, a status outside {200, 201} becomes
`(False, "Unexpected status <code>: <text[:500]>")`, success is
`(True, None)`. -/
def send_notification (h : HttpOutcome) : Bool × Option String :=
  match h with
  | HttpOutcome.transportError msg => (false, some msg)
  | HttpOutcome.resp code text =>
    if ¬ (code = 200 ∨ code = 201) then
      (false, some ("Unexpected status " ++ toString code ++ ": " ++ text.take 500))
    else (true, Option.none)

/-- Body of `POST /orders`.  `item` is modelled as an optional string:
the handler coerces an absent value to `""` via `or ""` before
stripping; a non-string `item` would crash `.strip()` and is outside
the model. -/
structure CreateReq where
  user_id : PyVal
  item : Option String
  amount : PyVal
deriving DecidableEq

/-- Response of `POST /orders`: one constructor per HTTP outcome the
handler can produce.  `created` carries the persisted row plus the
`notification_sent` flag and the optional `notification_error` value;
`internalError` is the generic 500 the `errorhandler` fallback
(src/order-service/app.py:106) produces for the uncaught
`json.JSONDecodeError` — its message is the library-generated
exception text, which is not modelled. -/
inductive CreateResult where
  | badRequest (message : String)
  | unavailable (service details : String)
  | badGateway (service : String) (status : Nat) (body : String)
  | created (order : Order) (sent : Bool) (notifErr : Option String)
  | internalError
deriving DecidableEq

/-- HTTP status code of each `POST /orders` response (the handler plus
the `errorhandler` at src/order-service/app.py:71-106). -/
def CreateResult.httpStatus : CreateResult → Nat
  | CreateResult.badRequest _ => 400
  | CreateResult.unavailable _ _ => 503
  | CreateResult.badGateway _ _ _ => 502
  | CreateResult.created _ _ _ => 201
  | CreateResult.internalError => 500

/-- Python truthiness applied to the error detail: `if err:` only sets
the `notification_error` key when `err` is a non-empty string. -/
def truthyStr : Option String → Option String
  | some e => if e = "" then Option.none else some e
  | Option.none => Option.none

/-- `create_order`, the `POST /orders` handler
(src/order-service/app.py:139-196).  `now` is the value of
`utc_now_iso()`; `userCall` and `notifyCall` are the raw outcomes of the
two upstream HTTP requests.  The point lookup right after the `INSERT`
runs on the same connection and reads the row just written
(read-your-write); with unique primary keys it returns exactly `row`,
so the embedding returns `row` directly. -/
def create_order (s : Store) (now : String) (userCall notifyCall : HttpOutcome)
    (req : CreateReq) : CreateResult × Store :=
  let item := pyStrip (req.item.getD "")
  if req.user_id = PyVal.none ∨ item = "" ∨ req.amount = PyVal.none then
    (CreateResult.badRequest "Fields \x27user_id\x27, \x27item\x27, and \x27amount\x27 are required.", s)
  else
    match pyInt req.user_id with
    | Option.none =>
      (CreateResult.badRequest "Field \x27user_id\x27 must be an integer.", s)
    | some uid =>
      match pyInt req.amount with
      | Option.none =>
        (CreateResult.badRequest "Field \x27amount\x27 must be an integer.", s)
      | some amt =>
        if amt ≤ 0 then
          (CreateResult.badRequest "Field \x27amount\x27 must be > 0.", s)
        else
          match fetch_user userCall with
          | FetchResult.unavailable svc d => (CreateResult.unavailable svc d, s)
          | FetchResult.badResponse svc code body => (CreateResult.badGateway svc code body, s)
          | FetchResult.absent =>
            (CreateResult.badRequest "User does not exist.", s)
          | FetchResult.found =>
            let oid := s.nextId
            let row : Order := ⟨oid, uid, item, amt, "created", now⟩
            let s1 : Store := ⟨s.nextId + 1, s.rows ++ [row]⟩
            let nres := send_notification notifyCall
            (CreateResult.created row nres.1 (truthyStr nres.2), s1)
          | FetchResult.decodeError => (CreateResult.internalError, s)

/-- Response of `GET /orders/<id>`. -/
inductive GetResult where
  | ok (order : Order)
  | notFound (message : String)
deriving DecidableEq

/-- `get_order`, the `GET /orders/<id>` handler
(src/order-service/app.py:206-215). -/
def get_order (s : Store) (oid : Nat) : GetResult :=
  match findRow s oid with
  | some r => GetResult.ok r
  | Option.none => GetResult.notFound "Order not found."

/-- Insertion step of the descending-id sort below: place `o` after
every element whose id is at least `o.id`. -/
def insertDesc (o : Order) : List Order → List Order
  | [] => [o]
  | x :: xs => if o.id ≤ x.id then x :: insertDesc o xs else o :: x :: xs

/-- Sort by descending id, the embedding of `ORDER BY id DESC`. -/
def sortDesc : List Order → List Order
  | [] => []
  | x :: xs => insertDesc x (sortDesc xs)

/-- `list_orders`, the `GET /orders` handler
(src/order-service/app.py:198-204): all rows ordered by id descending. -/
def list_orders (s : Store) : List Order := sortDesc s.rows

/-- Body of `PUT /orders/<id>`: each recognized field is either absent
(`PyVal.none`, i.e. missing from the JSON body or explicitly null) or a
supplied scalar. -/
structure UpdateReq where
  status : PyVal
  item : PyVal
  amount : PyVal
deriving DecidableEq

/-- Response of `PUT /orders/<id>`. -/
inductive UpdateResult where
  | notFound (message : String)
  | badRequest (message : String)
  | ok (order : Order)
deriving DecidableEq

/-- HTTP status code of each `PUT /orders/<id>` response. -/
def UpdateResult.httpStatus : UpdateResult → Nat
  | UpdateResult.notFound _ => 404
  | UpdateResult.badRequest _ => 400
  | UpdateResult.ok _ => 200

/-- The `status` branch of `update_order`
(src/order-service/app.py:232-237): absent field contributes nothing;
a supplied value is `str(...)`-coerced and stripped, and must be
non-empty. -/
def validStatus : PyVal → Except String (Option String)
  | PyVal.none => Except.ok Option.none
  | v =>
    let t := pyStrip (pyStr v)
    if t = "" then Except.error "Field \x27status\x27 cannot be empty."
    else Except.ok (some t)

/-- The `item` branch of `update_order`
(src/order-service/app.py:239-244): same rule as `status`. -/
def validItem : PyVal → Except String (Option String)
  | PyVal.none => Except.ok Option.none
  | v =>
    let t := pyStrip (pyStr v)
    if t = "" then Except.error "Field \x27item\x27 cannot be empty."
    else Except.ok (some t)

/-- The `amount` branch of `update_order`
(src/order-service/app.py:246-254): a supplied value must parse with
`int(...)` and be positive. -/
def validAmount : PyVal → Except String (Option Int)
  | PyVal.none => Except.ok Option.none
  | v =>
    match pyInt v with
    | Option.none => Except.error "Field \x27amount\x27 must be an integer."
    | some n =>
      if n ≤ 0 then Except.error "Field \x27amount\x27 must be > 0."
      else Except.ok (some n)

/-- `update_order`, the `PUT /orders/<id>` handler
(src/order-service/app.py:217-267).  Existence check first; then the
three field validations in source order, each failure aborting before
the `UPDATE`; then the `fields` list must be non-empty; then one
`UPDATE ... WHERE id = ?` applies every supplied field at once, and the
re-select reads back the row just written (with unique primary keys,
`newRow` itself). -/
def update_order (s : Store) (oid : Nat) (req : UpdateReq) : UpdateResult × Store :=
  match findRow s oid with
  | Option.none => (UpdateResult.notFound "Order not found.", s)
  | some old =>
    match validStatus req.status with
    | Except.error m => (UpdateResult.badRequest m, s)
    | Except.ok stN =>
      match validItem req.item with
      | Except.error m => (UpdateResult.badRequest m, s)
      | Except.ok itN =>
        match validAmount req.amount with
        | Except.error m => (UpdateResult.badRequest m, s)
        | Except.ok amN =>
          if stN.isNone ∧ itN.isNone ∧ amN.isNone then
            (UpdateResult.badRequest "No updatable fields provided.", s)
          else
            let newRow : Order :=
              { old with
                status := stN.getD old.status
                item := itN.getD old.item
                amount := amN.getD old.amount }
            let s1 : Store :=
              { s with rows := s.rows.map (fun r => if r.id == oid then newRow else r) }
            (UpdateResult.ok newRow, s1)

/-- Response of `DELETE /orders/<id>`. -/
inductive DeleteResult where
  | notFound (message : String)
  | noContent
deriving DecidableEq

/-- `delete_order`, the `DELETE /orders/<id>` handler
(src/order-service/app.py:269-276): `DELETE ... WHERE id = ?`, then 404
when `rowcount` is zero, 204 otherwise. -/
def delete_order (s : Store) (oid : Nat) : DeleteResult × Store :=
  let remaining := s.rows.filter (fun r => ! (r.id == oid))
  if remaining.length = s.rows.length then (DeleteResult.notFound "Order not found.", s)
  else (DeleteResult.noContent, { s with rows := remaining })

/-- The two invariants the spec states for every order row. -/
def OrderOK (o : Order) : Prop := 0 < o.amount ∧ o.status ≠ ""

/-- Well-formedness the SQLite schema provides: ids strictly increase
along the table (AUTOINCREMENT primary key) and stay below the counter. -/
def Store.WF (s : Store) : Prop :=
  (∀ o ∈ s.rows, o.id < s.nextId) ∧ s.rows.Pairwise (fun a b => a.id < b.id)

/-- Every row satisfies the spec's order invariants. -/
def Store.Inv (s : Store) : Prop := ∀ o ∈ s.rows, OrderOK o

/-- Stores reachable from the fresh table through any sequence of the
order-service write operations, under arbitrary request bodies,
timestamps, and upstream behaviours. -/
inductive Reachable : Store → Prop where
  | empty : Reachable Store.empty
  | create (s : Store) (now : String) (uc nc : HttpOutcome) (req : CreateReq) :
      Reachable s → Reachable (create_order s now uc nc req).2
  | update (s : Store) (oid : Nat) (req : UpdateReq) :
      Reachable s → Reachable (update_order s oid req).2
  | delete (s : Store) (oid : Nat) :
      Reachable s → Reachable (delete_order s oid).2

end OrderSvc

namespace NotifySvc

open OrderSvc (PyVal pyStrip)

/-- One row of the `notifications` table
(src/notification-service/app.py:31-37); `user_id` and `order_id` are
nullable and stored exactly as received. -/
structure NotificationRow where
  id : Nat
  user_id : PyVal
  order_id : PyVal
  message : String
  created_at : String
deriving DecidableEq

/-- The `notifications` table with its AUTOINCREMENT counter. -/
structure NStore where
  nextId : Nat
  rows : List NotificationRow
deriving DecidableEq

/-- The freshly created notifications table. -/
def NStore.empty : NStore := ⟨1, []⟩

/-- Body of `POST /notify`; `message` is optional-string for the same
reason as `CreateReq.item`. -/
structure NotifyReq where
  user_id : PyVal
  order_id : PyVal
  message : Option String
deriving DecidableEq

/-- Response of `POST /notify`. -/
inductive NotifyResult where
  | badRequest (message : String)
  | created (row : NotificationRow)
deriving DecidableEq

/-- HTTP status code of each `POST /notify` response. -/
def NotifyResult.httpStatus : NotifyResult → Nat
  | NotifyResult.badRequest _ => 400
  | NotifyResult.created _ => 201

/-- `notify`, the `POST /notify` handler
(src/notification-service/app.py:68-92): only the stripped message is
validated; `user_id` and `order_id` are read from the body and inserted
as given, with no type or referential check. -/
def notify (s : NStore) (now : String) (req : NotifyReq) : NotifyResult × NStore :=
  let message := pyStrip (req.message.getD "")
  if message = "" then
    (NotifyResult.badRequest "Field \x27message\x27 is required.", s)
  else
    let row : NotificationRow := ⟨s.nextId, req.user_id, req.order_id, message, now⟩
    (NotifyResult.created row, ⟨s.nextId + 1, s.rows ++ [row]⟩)

end NotifySvc

namespace OrderSvc

/-! ### Path equations for `create_order` -/

lemma create_order_eq_missing (s : Store) (now : String) (uc nc : HttpOutcome)
    (req : CreateReq)
    (h : req.user_id = PyVal.none ∨ pyStrip (req.item.getD "") = "" ∨ req.amount = PyVal.none) :
    create_order s now uc nc req =
      (CreateResult.badRequest "Fields \x27user_id\x27, \x27item\x27, and \x27amount\x27 are required.", s) := by
  simp only [create_order]
  rw [if_pos h]

lemma create_order_eq_uid_nonint (s : Store) (now : String) (uc nc : HttpOutcome)
    (req : CreateReq)
    (h1 : req.user_id ≠ PyVal.none) (h2 : pyStrip (req.item.getD "") ≠ "")
    (h3 : req.amount ≠ PyVal.none) (hu : pyInt req.user_id = Option.none) :
    create_order s now uc nc req =
      (CreateResult.badRequest "Field \x27user_id\x27 must be an integer.", s) := by
  simp only [create_order]
  rw [if_neg (by tauto)]
  simp only [hu]

lemma create_order_eq_amt_nonint (s : Store) (now : String) (uc nc : HttpOutcome)
    (req : CreateReq) (uid : Int)
    (h2 : pyStrip (req.item.getD "") ≠ "") (h3 : req.amount ≠ PyVal.none)
    (hu : pyInt req.user_id = some uid) (ha : pyInt req.amount = Option.none) :
    create_order s now uc nc req =
      (CreateResult.badRequest "Field \x27amount\x27 must be an integer.", s) := by
  have h1 : req.user_id ≠ PyVal.none := fun h => by simp [h, pyInt] at hu
  simp only [create_order]
  rw [if_neg (by tauto)]
  simp only [hu, ha]

lemma create_order_eq_amt_nonpos (s : Store) (now : String) (uc nc : HttpOutcome)
    (req : CreateReq) (uid amt : Int)
    (h2 : pyStrip (req.item.getD "") ≠ "")
    (hu : pyInt req.user_id = some uid) (ha : pyInt req.amount = some amt)
    (hle : amt ≤ 0) :
    create_order s now uc nc req =
      (CreateResult.badRequest "Field \x27amount\x27 must be > 0.", s) := by
  have h1 : req.user_id ≠ PyVal.none := fun h => by simp [h, pyInt] at hu
  have h3 : req.amount ≠ PyVal.none := fun h => by simp [h, pyInt] at ha
  simp only [create_order]
  rw [if_neg (by tauto)]
  simp only [hu, ha]
  rw [if_pos hle]

lemma create_order_eq_found (s : Store) (now : String) (uc nc : HttpOutcome)
    (req : CreateReq) (uid amt : Int)
    (h2 : pyStrip (req.item.getD "") ≠ "")
    (hu : pyInt req.user_id = some uid) (ha : pyInt req.amount = some amt)
    (hamt : 0 < amt) (hf : fetch_user uc = FetchResult.found) :
    create_order s now uc nc req =
      (CreateResult.created ⟨s.nextId, uid, pyStrip (req.item.getD ""), amt, "created", now⟩
         (send_notification nc).1 (truthyStr (send_notification nc).2),
       ⟨s.nextId + 1, s.rows ++ [⟨s.nextId, uid, pyStrip (req.item.getD ""), amt, "created", now⟩]⟩) := by
  have h1 : req.user_id ≠ PyVal.none := fun h => by simp [h, pyInt] at hu
  have h3 : req.amount ≠ PyVal.none := fun h => by simp [h, pyInt] at ha
  simp only [create_order]
  rw [if_neg (by tauto)]
  simp only [hu, ha]
  rw [if_neg (by omega)]
  simp only [hf]

/-! ### Path equations for `update_order` -/

lemma update_order_eq_notFound (s : Store) (oid : Nat) (req : UpdateReq)
    (h : findRow s oid = Option.none) :
    update_order s oid req = (UpdateResult.notFound "Order not found.", s) := by
  simp only [update_order, h]

lemma update_order_eq_err_status (s : Store) (oid : Nat) (req : UpdateReq)
    (old : Order) (m : String)
    (hold : findRow s oid = some old) (hst : validStatus req.status = Except.error m) :
    update_order s oid req = (UpdateResult.badRequest m, s) := by
  simp only [update_order, hold, hst]

lemma update_order_eq_err_item (s : Store) (oid : Nat) (req : UpdateReq)
    (old : Order) (stN : Option String) (m : String)
    (hold : findRow s oid = some old) (hst : validStatus req.status = Except.ok stN)
    (hit : validItem req.item = Except.error m) :
    update_order s oid req = (UpdateResult.badRequest m, s) := by
  simp only [update_order, hold, hst, hit]

lemma update_order_eq_err_amount (s : Store) (oid : Nat) (req : UpdateReq)
    (old : Order) (stN itN : Option String) (m : String)
    (hold : findRow s oid = some old) (hst : validStatus req.status = Except.ok stN)
    (hit : validItem req.item = Except.ok itN)
    (ham : validAmount req.amount = Except.error m) :
    update_order s oid req = (UpdateResult.badRequest m, s) := by
  simp only [update_order, hold, hst, hit, ham]

lemma update_order_eq_empty (s : Store) (oid : Nat) (req : UpdateReq)
    (old : Order) (stN itN : Option String) (amN : Option Int)
    (hold : findRow s oid = some old) (hst : validStatus req.status = Except.ok stN)
    (hit : validItem req.item = Except.ok itN)
    (ham : validAmount req.amount = Except.ok amN)
    (hempty : stN.isNone ∧ itN.isNone ∧ amN.isNone) :
    update_order s oid req = (UpdateResult.badRequest "No updatable fields provided.", s) := by
  simp only [update_order, hold, hst, hit, ham]
  rw [if_pos hempty]

lemma update_order_eq_ok (s : Store) (oid : Nat) (req : UpdateReq)
    (old : Order) (stN itN : Option String) (amN : Option Int)
    (hold : findRow s oid = some old) (hst : validStatus req.status = Except.ok stN)
    (hit : validItem req.item = Except.ok itN)
    (ham : validAmount req.amount = Except.ok amN)
    (hne : ¬ (stN.isNone ∧ itN.isNone ∧ amN.isNone)) :
    update_order s oid req =
      (UpdateResult.ok
        { old with
          status := stN.getD old.status
          item := itN.getD old.item
          amount := amN.getD old.amount },
       { s with rows := s.rows.map (fun r =>
          if r.id == oid then
            { old with
              status := stN.getD old.status
              item := itN.getD old.item
              amount := amN.getD old.amount }
          else r) }) := by
  simp only [update_order, hold, hst, hit, ham]
  rw [if_neg hne]

/-! ### Lookup helpers -/

lemma find?_append_of_ne {rows : List Order} {o : Order} {n : Nat}
    (h : ∀ r ∈ rows, r.id ≠ n) (ho : o.id = n) :
    (rows ++ [o]).find? (fun r => r.id == n) = some o := by
  induction rows with
  | nil => simp [List.find?, ho]
  | cons x xs ih =>
    have hx : (x.id == n) = false := by
      simpa using h x (List.mem_cons_self x xs)
    simp only [List.cons_append, List.find?, hx]
    exact ih (fun r hr => h r (List.mem_cons_of_mem _ hr))

lemma findRow_mem {s : Store} {oid : Nat} {o : Order}
    (h : findRow s oid = some o) : o ∈ s.rows ∧ o.id = oid := by
  unfold findRow at h
  refine ⟨List.mem_of_find?_eq_some h, ?_⟩
  have := List.find?_some h
  simpa using this

/-! ### Validator characterizations -/

lemma validStatus_ok_ne {v : PyVal} {t : String}
    (h : validStatus v = Except.ok (some t)) : t ≠ "" := by
  cases v with
  | none => simp [validStatus] at h
  | int n =>
    simp only [validStatus] at h
    split at h
    · cases h
    · rename_i hcond
      simp only [Except.ok.injEq, Option.some.injEq] at h
      subst h
      exact hcond
  | str s =>
    simp only [validStatus] at h
    split at h
    · cases h
    · rename_i hcond
      simp only [Except.ok.injEq, Option.some.injEq] at h
      subst h
      exact hcond

lemma validItem_ok_ne {v : PyVal} {t : String}
    (h : validItem v = Except.ok (some t)) : t ≠ "" := by
  cases v with
  | none => simp [validItem] at h
  | int n =>
    simp only [validItem] at h
    split at h
    · cases h
    · rename_i hcond
      simp only [Except.ok.injEq, Option.some.injEq] at h
      subst h
      exact hcond
  | str s =>
    simp only [validItem] at h
    split at h
    · cases h
    · rename_i hcond
      simp only [Except.ok.injEq, Option.some.injEq] at h
      subst h
      exact hcond

lemma validAmount_ok_pos {v : PyVal} {n : Int}
    (h : validAmount v = Except.ok (some n)) : 0 < n := by
  cases v with
  | none => simp [validAmount] at h
  | int m =>
    simp only [validAmount] at h
    split at h
    · cases h
    · rename_i k hk
      split at h
      · cases h
      · rename_i hpos
        simp only [Except.ok.injEq, Option.some.injEq] at h
        subst h
        omega
  | str s =>
    simp only [validAmount] at h
    split at h
    · cases h
    · rename_i k hk
      split at h
      · cases h
      · rename_i hpos
        simp only [Except.ok.injEq, Option.some.injEq] at h
        subst h
        omega

/-! ### Store-shape case analyses for the write operations -/

lemma create_order_store_cases (s : Store) (now : String) (uc nc : HttpOutcome)
    (req : CreateReq) :
    (create_order s now uc nc req).2 = s ∨
    ∃ uid amt : Int, 0 < amt ∧
      (create_order s now uc nc req).2 =
        ⟨s.nextId + 1, s.rows ++ [⟨s.nextId, uid, pyStrip (req.item.getD ""), amt, "created", now⟩]⟩ := by
  simp only [create_order]
  split
  · exact Or.inl rfl
  split
  · exact Or.inl rfl
  rename_i uid hu
  split
  · exact Or.inl rfl
  rename_i amt ha
  split
  · exact Or.inl rfl
  rename_i hle
  split
  · exact Or.inl rfl
  · exact Or.inl rfl
  · exact Or.inl rfl
  · exact Or.inr ⟨uid, amt, by omega, rfl⟩
  · exact Or.inl rfl

lemma update_order_store_cases (s : Store) (oid : Nat) (req : UpdateReq) :
    (update_order s oid req).2 = s ∨
    ∃ (old : Order) (stN itN : Option String) (amN : Option Int),
      findRow s oid = some old ∧
      validStatus req.status = Except.ok stN ∧
      validItem req.item = Except.ok itN ∧
      validAmount req.amount = Except.ok amN ∧
      (update_order s oid req).2 =
        { s with rows := s.rows.map (fun r =>
            if r.id == oid then
              { old with
                status := stN.getD old.status
                item := itN.getD old.item
                amount := amN.getD old.amount }
            else r) } := by
  simp only [update_order]
  split
  · exact Or.inl rfl
  rename_i old hold
  split
  · exact Or.inl rfl
  rename_i stN hst
  split
  · exact Or.inl rfl
  rename_i itN hit
  split
  · exact Or.inl rfl
  rename_i amN ham
  split
  · exact Or.inl rfl
  · exact Or.inr ⟨old, stN, itN, amN, hold, hst, hit, ham, rfl⟩

lemma delete_order_store_cases (s : Store) (oid : Nat) :
    (delete_order s oid).2 = s ∨
    (delete_order s oid).2 = { s with rows := s.rows.filter (fun r => ! (r.id == oid)) } := by
  simp only [delete_order]
  split
  · exact Or.inl rfl
  · exact Or.inr rfl

/-! ### Preservation of well-formedness and the row invariants -/

lemma create_order_preserves (s : Store) (now : String) (uc nc : HttpOutcome)
    (req : CreateReq) (hWF : s.WF) (hInv : s.Inv) :
    (create_order s now uc nc req).2.WF ∧ (create_order s now uc nc req).2.Inv := by
  rcases create_order_store_cases s now uc nc req with h | ⟨uid, amt, hamt, h⟩
  · rw [h]
    exact ⟨hWF, hInv⟩
  · rw [h]
    refine ⟨⟨?_, ?_⟩, ?_⟩
    · intro o ho
      show o.id < s.nextId + 1
      rcases List.mem_append.mp ho with ho | ho
      · have := hWF.1 o ho
        omega
      · rw [List.mem_singleton.mp ho]
        show s.nextId < s.nextId + 1
        omega
    · show (s.rows ++ [_]).Pairwise _
      rw [List.pairwise_append]
      refine ⟨hWF.2, by simp, ?_⟩
      intro a ha b hb
      rw [List.mem_singleton.mp hb]
      show a.id < s.nextId
      exact hWF.1 a ha
    · intro o ho
      rcases List.mem_append.mp ho with ho | ho
      · exact hInv o ho
      · rw [List.mem_singleton.mp ho]
        exact ⟨hamt, by simp⟩

lemma update_order_preserves (s : Store) (oid : Nat) (req : UpdateReq)
    (hWF : s.WF) (hInv : s.Inv) :
    (update_order s oid req).2.WF ∧ (update_order s oid req).2.Inv := by
  rcases update_order_store_cases s oid req with h | ⟨old, stN, itN, amN, hold, hst, hit, ham, h⟩
  · rw [h]
    exact ⟨hWF, hInv⟩
  · rw [h]
    obtain ⟨holdMem, holdId⟩ := findRow_mem hold
    have hid : ∀ r : Order,
        (if (r.id == oid) = true then
          { old with
            status := stN.getD old.status
            item := itN.getD old.item
            amount := amN.getD old.amount }
         else r).id = r.id := by
      intro r
      by_cases hr : r.id = oid
      · simp [hr, holdId]
      · simp [hr]
    have hOK : OrderOK
        { old with
          status := stN.getD old.status
          item := itN.getD old.item
          amount := amN.getD old.amount } := by
      have holdOK := hInv old holdMem
      constructor
      · show 0 < amN.getD old.amount
        cases hamN : amN with
        | none => simpa using holdOK.1
        | some n => simpa using validAmount_ok_pos (hamN ▸ ham)
      · show stN.getD old.status ≠ ""
        cases hstN : stN with
        | none => simpa using holdOK.2
        | some t => simpa using validStatus_ok_ne (hstN ▸ hst)
    refine ⟨⟨?_, ?_⟩, ?_⟩
    · intro o ho
      show o.id < s.nextId
      rcases List.mem_map.mp ho with ⟨r, hr, hro⟩
      rw [← hro, hid r]
      exact hWF.1 r hr
    · show (s.rows.map _).Pairwise _
      rw [List.pairwise_map]
      exact hWF.2.imp (fun {a b} hab => by rw [hid a, hid b]; exact hab)
    · intro o ho
      rcases List.mem_map.mp ho with ⟨r, hr, hro⟩
      rw [← hro]
      by_cases hrid : r.id = oid
      · simpa [hrid] using hOK
      · simpa [hrid] using hInv r hr

lemma delete_order_preserves (s : Store) (oid : Nat)
    (hWF : s.WF) (hInv : s.Inv) :
    (delete_order s oid).2.WF ∧ (delete_order s oid).2.Inv := by
  rcases delete_order_store_cases s oid with h | h
  · rw [h]
    exact ⟨hWF, hInv⟩
  · rw [h]
    refine ⟨⟨?_, ?_⟩, ?_⟩
    · intro o ho
      show o.id < s.nextId
      exact hWF.1 o (List.mem_of_mem_filter ho)
    · show (s.rows.filter _).Pairwise _
      exact hWF.2.sublist (List.filter_sublist _)
    · intro o ho
      exact hInv o (List.mem_of_mem_filter ho)

lemma reachable_good {s : Store} (h : Reachable s) : s.WF ∧ s.Inv := by
  induction h with
  | empty =>
    refine ⟨⟨?_, ?_⟩, ?_⟩
    · intro o ho
      simp [Store.empty] at ho
    · simp [Store.empty]
    · intro o ho
      simp [Store.empty] at ho
  | create s now uc nc req _ ih =>
    exact create_order_preserves s now uc nc req ih.1 ih.2
  | update s oid req _ ih =>
    exact update_order_preserves s oid req ih.1 ih.2
  | delete s oid _ ih =>
    exact delete_order_preserves s oid ih.1 ih.2

/-! ### Sorting facts for `list_orders` -/

lemma insertDesc_perm (o : Order) (l : List Order) : (insertDesc o l).Perm (o :: l) := by
  induction l with
  | nil => simp [insertDesc]
  | cons x xs ih =>
    simp only [insertDesc]
    split
    · exact (ih.cons x).trans (List.Perm.swap o x xs)
    · exact List.Perm.refl _

lemma sortDesc_perm (l : List Order) : (sortDesc l).Perm l := by
  induction l with
  | nil => simp [sortDesc]
  | cons x xs ih =>
    simp only [sortDesc]
    exact (insertDesc_perm x (sortDesc xs)).trans (ih.cons x)

lemma mem_insertDesc {a o : Order} {l : List Order} (h : a ∈ insertDesc o l) :
    a = o ∨ a ∈ l := by
  have := (insertDesc_perm o l).mem_iff.mp h
  simpa using this

lemma insertDesc_pairwise {o : Order} {l : List Order}
    (h : l.Pairwise (fun a b => b.id ≤ a.id)) :
    (insertDesc o l).Pairwise (fun a b => b.id ≤ a.id) := by
  induction l with
  | nil => simp [insertDesc]
  | cons x xs ih =>
    rcases List.pairwise_cons.mp h with ⟨hx, hxs⟩
    simp only [insertDesc]
    split
    · rename_i hle
      refine List.pairwise_cons.mpr ⟨?_, ih hxs⟩
      intro b hb
      rcases mem_insertDesc hb with hb | hb
      · rw [hb]
        exact hle
      · exact hx b hb
    · rename_i hgt
      push_neg at hgt
      refine List.pairwise_cons.mpr ⟨?_, h⟩
      intro b hb
      rcases List.mem_cons.mp hb with hb | hb
      · rw [hb]
        omega
      · have := hx b hb
        omega

lemma sortDesc_pairwise (l : List Order) :
    (sortDesc l).Pairwise (fun a b => b.id ≤ a.id) := by
  induction l with
  | nil => simp [sortDesc]
  | cons x xs ih =>
    simp only [sortDesc]
    exact insertDesc_pairwise ih

lemma pairwise_and_of {R S : Order → Order → Prop} {l : List Order}
    (hR : l.Pairwise R) (hS : l.Pairwise S) :
    l.Pairwise (fun a b => R a b ∧ S a b) := by
  induction l with
  | nil => exact List.Pairwise.nil
  | cons x xs ih =>
    rcases List.pairwise_cons.mp hR with ⟨hRx, hRxs⟩
    rcases List.pairwise_cons.mp hS with ⟨hSx, hSxs⟩
    exact List.pairwise_cons.mpr ⟨fun b hb => ⟨hRx b hb, hSx b hb⟩, ih hRxs hSxs⟩

/-! ### String helper -/

lemma append_ne_empty_of_left {a b : String} (h : a ≠ "") : a ++ b ≠ "" := by
  intro hab
  apply h
  have hlen := congrArg String.length hab
  rw [String.length_append] at hlen
  have : a.length = 0 := by
    have : ("" : String).length = 0 := rfl
    omega
  cases a with
  | mk data =>
    cases data with
    | nil => rfl
    | cons c cs => simp [String.length] at this

/-! ### The claims -/

/-- C1: for every request with a valid integer `user_id`, a non-empty
trimmed `item`, and an integer `amount > 0`, when the user-existence
check returns Found (a completed 200 whose body parses to a non-null
JSON value), `create_order` appends exactly one new row with status
`"created"` and the current UTC timestamp, responds with HTTP 201
carrying that row, and a subsequent `get_order` on the returned
identifier returns a row with the same identifier, item, and amount. -/
theorem claim_c1_create_persists_and_get_roundtrip
    (s : Store) (now : String) (uc nc : HttpOutcome) (req : CreateReq)
    (uid amt : Int)
    (hWF : s.WF)
    (hfound : fetch_user uc = FetchResult.found)
    (hu : pyInt req.user_id = some uid) (ha : pyInt req.amount = some amt)
    (hamt : 0 < amt) (hitem : pyStrip (req.item.getD "") ≠ "") :
    ∃ o : Order,
      (create_order s now uc nc req).1
        = CreateResult.created o (send_notification nc).1
            (truthyStr (send_notification nc).2) ∧
      (create_order s now uc nc req).1.httpStatus = 201 ∧
      (create_order s now uc nc req).2.rows = s.rows ++ [o] ∧
      o.status = "created" ∧ o.created_at = now ∧
      o.user_id = uid ∧ o.item = pyStrip (req.item.getD "") ∧ o.amount = amt ∧
      get_order (create_order s now uc nc req).2 o.id
        = GetResult.ok o := by
  have heq := create_order_eq_found s now uc nc req uid amt hitem hu ha hamt hfound
  refine ⟨⟨s.nextId, uid, pyStrip (req.item.getD ""), amt, "created", now⟩,
    ?_, ?_, ?_, rfl, rfl, rfl, rfl, rfl, ?_⟩
  · rw [heq]
  · rw [heq]
    rfl
  · rw [heq]
  · have hne : ∀ r ∈ s.rows, r.id ≠ s.nextId := fun r hr => Nat.ne_of_lt (hWF.1 r hr)
    have hfind := find?_append_of_ne (o := ⟨s.nextId, uid, pyStrip (req.item.getD ""), amt, "created", now⟩)
      (n := s.nextId) hne rfl
    rw [heq]
    simp only [get_order, findRow]
    rw [hfind]

/-- Witness for C1: user 1 exists, item "widget", amount 10,
notification delivered. -/
theorem claim_c1_witness :
    ∃ o : Order,
      (create_order Store.empty "2026-01-01T00:00:00+00:00" (HttpOutcome.resp 200 "{}")
          (HttpOutcome.resp 201 "") ⟨PyVal.int 1, some "widget", PyVal.int 10⟩).1
        = CreateResult.created o (send_notification (HttpOutcome.resp 201 "")).1
            (truthyStr (send_notification (HttpOutcome.resp 201 "")).2) ∧
      (create_order Store.empty "2026-01-01T00:00:00+00:00" (HttpOutcome.resp 200 "{}")
          (HttpOutcome.resp 201 "") ⟨PyVal.int 1, some "widget", PyVal.int 10⟩).1.httpStatus = 201 ∧
      (create_order Store.empty "2026-01-01T00:00:00+00:00" (HttpOutcome.resp 200 "{}")
          (HttpOutcome.resp 201 "") ⟨PyVal.int 1, some "widget", PyVal.int 10⟩).2.rows
        = Store.empty.rows ++ [o] ∧
      o.status = "created" ∧ o.created_at = "2026-01-01T00:00:00+00:00" ∧
      o.user_id = 1 ∧
      o.item = pyStrip ((⟨PyVal.int 1, some "widget", PyVal.int 10⟩ : CreateReq).item.getD "") ∧
      o.amount = 10 ∧
      get_order (create_order Store.empty "2026-01-01T00:00:00+00:00" (HttpOutcome.resp 200 "{}")
          (HttpOutcome.resp 201 "") ⟨PyVal.int 1, some "widget", PyVal.int 10⟩).2 o.id
        = GetResult.ok o :=
  claim_c1_create_persists_and_get_roundtrip Store.empty "2026-01-01T00:00:00+00:00"
    (HttpOutcome.resp 200 "{}") (HttpOutcome.resp 201 "")
    ⟨PyVal.int 1, some "widget", PyVal.int 10⟩ 1 10
    (by refine ⟨?_, ?_⟩ <;> simp [Store.empty])
    (by decide) rfl rfl (by decide) (by decide)

/-- C3 counterexample: a notification transport failure whose exception
text is empty (`str(exc) == ""`).  The handler runs
`if err: order["notification_error"] = err`, and the empty string is
falsy, so the 201 response carries `notification_sent=false` but NO
error detail at all — refuting the claim that a failed dispatch always
comes with a non-empty error detail. -/
theorem claim_c3_counterexample :
    (create_order Store.empty "t0" (HttpOutcome.resp 200 "{}") (HttpOutcome.transportError "")
        ⟨PyVal.int 1, some "widget", PyVal.int 10⟩).1
      = CreateResult.created ⟨1, 1, "widget", 10, "created", "t0"⟩ false Option.none := by
  decide

/-- C3 as amended: when the user check succeeds, the order is written
and the response is 201 for EVERY notification outcome (the dispatch
never propagates a hard failure); a failed dispatch yields
`notification_sent=false`, and the response carries a non-empty error
detail whenever the underlying failure detail is non-empty — always
the case for a bad-status failure, while a transport error whose
exception text is empty yields no `notification_error` key. -/
theorem claim_c3_notify_soft_failure
    (s : Store) (now : String) (uc : HttpOutcome) (req : CreateReq) (uid amt : Int)
    (hfound : fetch_user uc = FetchResult.found)
    (hu : pyInt req.user_id = some uid) (ha : pyInt req.amount = some amt)
    (hamt : 0 < amt) (hitem : pyStrip (req.item.getD "") ≠ "") :
    (∀ nc, (create_order s now uc nc req).2.rows
        = s.rows ++ [⟨s.nextId, uid, pyStrip (req.item.getD ""), amt, "created", now⟩] ∧
      ∃ b e, (create_order s now uc nc req).1
          = CreateResult.created ⟨s.nextId, uid, pyStrip (req.item.getD ""), amt, "created", now⟩ b e ∧
        (create_order s now uc nc req).1.httpStatus = 201) ∧
    (∀ d, d ≠ "" →
      (create_order s now uc (HttpOutcome.transportError d) req).1
        = CreateResult.created ⟨s.nextId, uid, pyStrip (req.item.getD ""), amt, "created", now⟩
            false (some d)) ∧
    (∀ c t, c ≠ 200 → c ≠ 201 →
      ∃ e, (create_order s now uc (HttpOutcome.resp c t) req).1
          = CreateResult.created ⟨s.nextId, uid, pyStrip (req.item.getD ""), amt, "created", now⟩
              false (some e) ∧
        e ≠ "") := by
  refine ⟨?_, ?_, ?_⟩
  · intro nc
    rw [create_order_eq_found s now uc nc req uid amt hitem hu ha hamt hfound]
    exact ⟨rfl, (send_notification nc).1, truthyStr (send_notification nc).2, rfl, rfl⟩
  · intro d hd
    rw [create_order_eq_found s now uc (HttpOutcome.transportError d) req uid amt
      hitem hu ha hamt hfound]
    simp [send_notification, truthyStr, hd]
  · intro c t hc200 hc201
    have hmsg : ("Unexpected status " ++ toString c ++ ": " ++ t.take 500) ≠ "" := by
      apply append_ne_empty_of_left
      apply append_ne_empty_of_left
      apply append_ne_empty_of_left
      decide
    have hsn : send_notification (HttpOutcome.resp c t)
        = (false, some ("Unexpected status " ++ toString c ++ ": " ++ t.take 500)) := by
      simp [send_notification, hc200, hc201]
    refine ⟨"Unexpected status " ++ toString c ++ ": " ++ t.take 500, ?_, hmsg⟩
    rw [create_order_eq_found s now uc (HttpOutcome.resp c t) req uid amt
      hitem hu ha hamt hfound]
    rw [hsn]
    simp [truthyStr, hmsg]

/-- Witness for the amended C3 at a concrete valid request. -/
theorem claim_c3_witness :
    (∀ nc, (create_order Store.empty "t0" (HttpOutcome.resp 200 "{}") nc
          ⟨PyVal.int 1, some "widget", PyVal.int 10⟩).2.rows
        = Store.empty.rows ++ [⟨1, 1, "widget", 10, "created", "t0"⟩] ∧
      ∃ b e, (create_order Store.empty "t0" (HttpOutcome.resp 200 "{}") nc
            ⟨PyVal.int 1, some "widget", PyVal.int 10⟩).1
          = CreateResult.created ⟨1, 1, "widget", 10, "created", "t0"⟩ b e ∧
        (create_order Store.empty "t0" (HttpOutcome.resp 200 "{}") nc
            ⟨PyVal.int 1, some "widget", PyVal.int 10⟩).1.httpStatus = 201) ∧
    (∀ d, d ≠ "" →
      (create_order Store.empty "t0" (HttpOutcome.resp 200 "{}") (HttpOutcome.transportError d)
          ⟨PyVal.int 1, some "widget", PyVal.int 10⟩).1
        = CreateResult.created ⟨1, 1, "widget", 10, "created", "t0"⟩ false (some d)) ∧
    (∀ c t, c ≠ 200 → c ≠ 201 →
      ∃ e, (create_order Store.empty "t0" (HttpOutcome.resp 200 "{}") (HttpOutcome.resp c t)
            ⟨PyVal.int 1, some "widget", PyVal.int 10⟩).1
          = CreateResult.created ⟨1, 1, "widget", 10, "created", "t0"⟩ false (some e) ∧
        e ≠ "") :=
  claim_c3_notify_soft_failure Store.empty "t0" (HttpOutcome.resp 200 "{}")
    ⟨PyVal.int 1, some "widget", PyVal.int 10⟩ 1 10 (by decide) rfl rfl (by decide) (by decide)

/-- C4: a request in which `user_id` or `amount` does not parse as an
integer, or `item` is empty after trimming, or `amount <= 0`, fails
with HTTP 400 reporting one message for the first violated rule, in
the order: missing required fields (absent `user_id`/`amount` or blank
`item`), then non-integer `user_id`, then non-integer `amount`, then
non-positive `amount`; in every case the store is returned unchanged. -/
theorem claim_c4_validation_order
    (s : Store) (now : String) (uc nc : HttpOutcome) (req : CreateReq) :
    (req.user_id = PyVal.none ∨ pyStrip (req.item.getD "") = "" ∨ req.amount = PyVal.none →
      create_order s now uc nc req
        = (CreateResult.badRequest "Fields \x27user_id\x27, \x27item\x27, and \x27amount\x27 are required.", s)) ∧
    (req.user_id ≠ PyVal.none → pyStrip (req.item.getD "") ≠ "" → req.amount ≠ PyVal.none →
      pyInt req.user_id = Option.none →
      create_order s now uc nc req
        = (CreateResult.badRequest "Field \x27user_id\x27 must be an integer.", s)) ∧
    (∀ uid : Int, pyStrip (req.item.getD "") ≠ "" → req.amount ≠ PyVal.none →
      pyInt req.user_id = some uid → pyInt req.amount = Option.none →
      create_order s now uc nc req
        = (CreateResult.badRequest "Field \x27amount\x27 must be an integer.", s)) ∧
    (∀ uid amt : Int, pyStrip (req.item.getD "") ≠ "" →
      pyInt req.user_id = some uid → pyInt req.amount = some amt → amt ≤ 0 →
      create_order s now uc nc req
        = (CreateResult.badRequest "Field \x27amount\x27 must be > 0.", s)) ∧
    (∀ m, (CreateResult.badRequest m).httpStatus = 400) := by
  refine ⟨?_, ?_, ?_, ?_, fun m => rfl⟩
  · exact create_order_eq_missing s now uc nc req
  · exact fun h1 h2 h3 hu => create_order_eq_uid_nonint s now uc nc req h1 h2 h3 hu
  · exact fun uid h2 h3 hu ha => create_order_eq_amt_nonint s now uc nc req uid h2 h3 hu ha
  · exact fun uid amt h2 hu ha hle => create_order_eq_amt_nonpos s now uc nc req uid amt h2 hu ha hle

/-- Witness for C4: one concrete request per validation failure. -/
theorem claim_c4_witness :
    create_order Store.empty "t0" (HttpOutcome.resp 200 "") (HttpOutcome.resp 201 "")
        ⟨PyVal.none, some "w", PyVal.int 5⟩
      = (CreateResult.badRequest "Fields \x27user_id\x27, \x27item\x27, and \x27amount\x27 are required.", Store.empty) ∧
    create_order Store.empty "t0" (HttpOutcome.resp 200 "") (HttpOutcome.resp 201 "")
        ⟨PyVal.str "abc", some "w", PyVal.int 5⟩
      = (CreateResult.badRequest "Field \x27user_id\x27 must be an integer.", Store.empty) ∧
    create_order Store.empty "t0" (HttpOutcome.resp 200 "") (HttpOutcome.resp 201 "")
        ⟨PyVal.int 1, some "w", PyVal.str "x"⟩
      = (CreateResult.badRequest "Field \x27amount\x27 must be an integer.", Store.empty) ∧
    create_order Store.empty "t0" (HttpOutcome.resp 200 "") (HttpOutcome.resp 201 "")
        ⟨PyVal.int 1, some "w", PyVal.int 0⟩
      = (CreateResult.badRequest "Field \x27amount\x27 must be > 0.", Store.empty) :=
  ⟨(claim_c4_validation_order Store.empty "t0" (HttpOutcome.resp 200 "") (HttpOutcome.resp 201 "")
      ⟨PyVal.none, some "w", PyVal.int 5⟩).1 (Or.inl rfl),
   (claim_c4_validation_order Store.empty "t0" (HttpOutcome.resp 200 "") (HttpOutcome.resp 201 "")
      ⟨PyVal.str "abc", some "w", PyVal.int 5⟩).2.1 (by decide) (by decide) (by decide) (by decide),
   (claim_c4_validation_order Store.empty "t0" (HttpOutcome.resp 200 "") (HttpOutcome.resp 201 "")
      ⟨PyVal.int 1, some "w", PyVal.str "x"⟩).2.2.1 1 (by decide) (by decide) rfl (by decide),
   (claim_c4_validation_order Store.empty "t0" (HttpOutcome.resp 200 "") (HttpOutcome.resp 201 "")
      ⟨PyVal.int 1, some "w", PyVal.int 0⟩).2.2.2.1 1 0 (by decide) rfl rfl (by decide)⟩

/-- C5: an update on an identifier with no existing order fails with
HTTP 404 regardless of the body; an update on an existing order whose
body supplies none of the recognized fields {status, item, amount}
fails with HTTP 400 and "No updatable fields provided.", and the store
is returned unchanged in both cases. -/
theorem claim_c5_update_missing_or_empty (s : Store) (oid : Nat) :
    (findRow s oid = Option.none → ∀ req : UpdateReq,
      update_order s oid req = (UpdateResult.notFound "Order not found.", s) ∧
      (update_order s oid req).1.httpStatus = 404) ∧
    (∀ old : Order, findRow s oid = some old →
      update_order s oid ⟨PyVal.none, PyVal.none, PyVal.none⟩
        = (UpdateResult.badRequest "No updatable fields provided.", s) ∧
      (update_order s oid ⟨PyVal.none, PyVal.none, PyVal.none⟩).1.httpStatus = 400) := by
  constructor
  · intro h req
    have heq := update_order_eq_notFound s oid req h
    exact ⟨heq, by rw [heq]; rfl⟩
  · intro old h
    have heq := update_order_eq_empty s oid ⟨PyVal.none, PyVal.none, PyVal.none⟩ old
      Option.none Option.none Option.none h rfl rfl rfl (by simp)
    exact ⟨heq, by rw [heq]; rfl⟩

/-- Witness for C5 on a one-row store: id 2 is absent, id 1 exists. -/
theorem claim_c5_witness :
    (update_order ⟨2, [⟨1, 1, "widget", 10, "created", "t0"⟩]⟩ 2 ⟨PyVal.str "x", PyVal.none, PyVal.none⟩
        = (UpdateResult.notFound "Order not found.", ⟨2, [⟨1, 1, "widget", 10, "created", "t0"⟩]⟩) ∧
      (update_order ⟨2, [⟨1, 1, "widget", 10, "created", "t0"⟩]⟩ 2
        ⟨PyVal.str "x", PyVal.none, PyVal.none⟩).1.httpStatus = 404) ∧
    (update_order ⟨2, [⟨1, 1, "widget", 10, "created", "t0"⟩]⟩ 1 ⟨PyVal.none, PyVal.none, PyVal.none⟩
        = (UpdateResult.badRequest "No updatable fields provided.", ⟨2, [⟨1, 1, "widget", 10, "created", "t0"⟩]⟩) ∧
      (update_order ⟨2, [⟨1, 1, "widget", 10, "created", "t0"⟩]⟩ 1
        ⟨PyVal.none, PyVal.none, PyVal.none⟩).1.httpStatus = 400) :=
  ⟨(claim_c5_update_missing_or_empty ⟨2, [⟨1, 1, "widget", 10, "created", "t0"⟩]⟩ 2).1
      (by decide) ⟨PyVal.str "x", PyVal.none, PyVal.none⟩,
   (claim_c5_update_missing_or_empty ⟨2, [⟨1, 1, "widget", 10, "created", "t0"⟩]⟩ 1).2
      ⟨1, 1, "widget", 10, "created", "t0"⟩ (by decide)⟩

/-- C6: on an existing order, a failing per-field validation aborts the
whole update with HTTP 400 before anything is written (the store is
returned unchanged); on success all supplied fields are applied in one
write while every unsupplied field — in particular `id`, `user_id`,
and the immutable `created_at` — is unchanged, rows with other ids are
untouched, and the refreshed row is returned. -/
theorem claim_c6_update_abort_or_atomic
    (s : Store) (oid : Nat) (req : UpdateReq) (old : Order)
    (hold : findRow s oid = some old) :
    ((∃ m, validStatus req.status = Except.error m) ∨
     (∃ m, validItem req.item = Except.error m) ∨
     (∃ m, validAmount req.amount = Except.error m) →
      ∃ m, update_order s oid req = (UpdateResult.badRequest m, s) ∧
        (update_order s oid req).1.httpStatus = 400) ∧
    (∀ (stN itN : Option String) (amN : Option Int),
      validStatus req.status = Except.ok stN →
      validItem req.item = Except.ok itN →
      validAmount req.amount = Except.ok amN →
      ¬ (stN.isNone ∧ itN.isNone ∧ amN.isNone) →
      ∃ o, update_order s oid req
          = (UpdateResult.ok o,
             { s with rows := s.rows.map (fun r => if r.id == oid then o else r) }) ∧
        o.id = old.id ∧ o.user_id = old.user_id ∧ o.created_at = old.created_at ∧
        o.status = stN.getD old.status ∧ o.item = itN.getD old.item ∧
        o.amount = amN.getD old.amount ∧
        (∀ r ∈ s.rows, r.id ≠ oid → r ∈ (update_order s oid req).2.rows)) := by
  constructor
  · intro hbad
    rcases hst : validStatus req.status with m | stN
    · exact ⟨m, update_order_eq_err_status s oid req old m hold hst,
        by rw [update_order_eq_err_status s oid req old m hold hst]; rfl⟩
    rcases hit : validItem req.item with m | itN
    · exact ⟨m, update_order_eq_err_item s oid req old stN m hold hst hit,
        by rw [update_order_eq_err_item s oid req old stN m hold hst hit]; rfl⟩
    rcases ham : validAmount req.amount with m | amN
    · exact ⟨m, update_order_eq_err_amount s oid req old stN itN m hold hst hit ham,
        by rw [update_order_eq_err_amount s oid req old stN itN m hold hst hit ham]; rfl⟩
    · exfalso
      rcases hbad with ⟨m, hm⟩ | ⟨m, hm⟩ | ⟨m, hm⟩
      · rw [hst] at hm
        cases hm
      · rw [hit] at hm
        cases hm
      · rw [ham] at hm
        cases hm
  · intro stN itN amN hst hit ham hne
    have heq := update_order_eq_ok s oid req old stN itN amN hold hst hit ham hne
    refine ⟨{ old with
        status := stN.getD old.status
        item := itN.getD old.item
        amount := amN.getD old.amount },
      heq, rfl, rfl, rfl, rfl, rfl, rfl, ?_⟩
    intro r hr hrid
    rw [heq]
    show r ∈ s.rows.map _
    refine List.mem_map.mpr ⟨r, hr, ?_⟩
    simp [hrid]

/-- Witness for C6 on a one-row store: a blank status aborts the whole
update, and a status-only update leaves every other field intact. -/
theorem claim_c6_witness :
    (∃ m, update_order ⟨2, [⟨1, 7, "widget", 10, "created", "t0"⟩]⟩ 1
          ⟨PyVal.str "  ", PyVal.none, PyVal.int 5⟩
        = (UpdateResult.badRequest m, ⟨2, [⟨1, 7, "widget", 10, "created", "t0"⟩]⟩) ∧
      (update_order ⟨2, [⟨1, 7, "widget", 10, "created", "t0"⟩]⟩ 1
          ⟨PyVal.str "  ", PyVal.none, PyVal.int 5⟩).1.httpStatus = 400) ∧
    (∃ o, update_order ⟨2, [⟨1, 7, "widget", 10, "created", "t0"⟩]⟩ 1
          ⟨PyVal.str "shipped", PyVal.none, PyVal.none⟩
        = (UpdateResult.ok o,
           ⟨2, [⟨1, 7, "widget", 10, "created", "t0"⟩].map (fun r => if r.id == 1 then o else r)⟩) ∧
      o.id = 1 ∧ o.user_id = 7 ∧ o.created_at = "t0" ∧
      o.status = "shipped" ∧ o.item = "widget" ∧ o.amount = 10 ∧
      (∀ r ∈ [(⟨1, 7, "widget", 10, "created", "t0"⟩ : Order)], r.id ≠ 1 →
        r ∈ (update_order ⟨2, [⟨1, 7, "widget", 10, "created", "t0"⟩]⟩ 1
          ⟨PyVal.str "shipped", PyVal.none, PyVal.none⟩).2.rows)) :=
  ⟨(claim_c6_update_abort_or_atomic ⟨2, [⟨1, 7, "widget", 10, "created", "t0"⟩]⟩ 1
      ⟨PyVal.str "  ", PyVal.none, PyVal.int 5⟩ ⟨1, 7, "widget", 10, "created", "t0"⟩
      (by decide)).1
      (Or.inl ⟨"Field \x27status\x27 cannot be empty.", rfl⟩),
   (claim_c6_update_abort_or_atomic ⟨2, [⟨1, 7, "widget", 10, "created", "t0"⟩]⟩ 1
      ⟨PyVal.str "shipped", PyVal.none, PyVal.none⟩ ⟨1, 7, "widget", 10, "created", "t0"⟩
      (by decide)).2
      (some "shipped") Option.none Option.none rfl rfl rfl (by decide)⟩

/-- C7: every order row in any store reachable through create, update,
and delete operations satisfies `amount > 0` and a non-empty status;
all three operations preserve the invariant. -/
theorem claim_c7_reachable_invariants (s : Store) (h : Reachable s) :
    ∀ o ∈ s.rows, 0 < o.amount ∧ o.status ≠ "" :=
  fun o ho => (reachable_good h).2 o ho

/-- Witness for C7: the single row of the store after one successful
creation satisfies both invariants. -/
theorem claim_c7_witness :
    0 < (⟨1, 1, "widget", 10, "created", "t0"⟩ : Order).amount ∧
    (⟨1, 1, "widget", 10, "created", "t0"⟩ : Order).status ≠ "" :=
  claim_c7_reachable_invariants _
    (Reachable.create Store.empty "t0" (HttpOutcome.resp 200 "{}") (HttpOutcome.resp 201 "")
      ⟨PyVal.int 1, some "widget", PyVal.int 10⟩ Reachable.empty)
    ⟨1, 1, "widget", 10, "created", "t0"⟩ (by decide)

/-- C8: on every reachable store, `list_orders` returns exactly the
stored rows (a permutation of the table) in strictly descending
identifier order. -/
theorem claim_c8_list_orders_sorted_desc (s : Store) (h : Reachable s) :
    (list_orders s).Perm s.rows ∧
    (list_orders s).Pairwise (fun a b => b.id < a.id) := by
  have hWF := (reachable_good h).1
  refine ⟨sortDesc_perm s.rows, ?_⟩
  have hrows : s.rows.Pairwise (fun a b => a.id ≠ b.id) :=
    hWF.2.imp (fun hab => Nat.ne_of_lt hab)
  have hne : (sortDesc s.rows).Pairwise (fun a b => a.id ≠ b.id) :=
    ((sortDesc_perm s.rows).pairwise_iff (fun hab => Ne.symm hab)).mpr hrows
  have hle := sortDesc_pairwise s.rows
  exact (pairwise_and_of hle hne).imp (fun hab => lt_of_le_of_ne hab.1 (Ne.symm hab.2))

/-- Witness for C8: the store after two creations and one delete. -/
theorem claim_c8_witness :
    (list_orders (delete_order (create_order (create_order Store.empty "t0"
        (HttpOutcome.resp 200 "{}") (HttpOutcome.resp 201 "")
        ⟨PyVal.int 1, some "widget", PyVal.int 10⟩).2 "t1"
        (HttpOutcome.resp 200 "{}") (HttpOutcome.resp 201 "")
        ⟨PyVal.int 2, some "gadget", PyVal.int 3⟩).2 1).2).Perm
      (delete_order (create_order (create_order Store.empty "t0"
        (HttpOutcome.resp 200 "{}") (HttpOutcome.resp 201 "")
        ⟨PyVal.int 1, some "widget", PyVal.int 10⟩).2 "t1"
        (HttpOutcome.resp 200 "{}") (HttpOutcome.resp 201 "")
        ⟨PyVal.int 2, some "gadget", PyVal.int 3⟩).2 1).2.rows ∧
    (list_orders (delete_order (create_order (create_order Store.empty "t0"
        (HttpOutcome.resp 200 "{}") (HttpOutcome.resp 201 "")
        ⟨PyVal.int 1, some "widget", PyVal.int 10⟩).2 "t1"
        (HttpOutcome.resp 200 "{}") (HttpOutcome.resp 201 "")
        ⟨PyVal.int 2, some "gadget", PyVal.int 3⟩).2 1).2).Pairwise
      (fun a b => b.id < a.id) :=
  claim_c8_list_orders_sorted_desc _
    (Reachable.delete _ 1
      (Reachable.create _ "t1" (HttpOutcome.resp 200 "{}") (HttpOutcome.resp 201 "")
        ⟨PyVal.int 2, some "gadget", PyVal.int 3⟩
        (Reachable.create Store.empty "t0" (HttpOutcome.resp 200 "{}") (HttpOutcome.resp 201 "")
          ⟨PyVal.int 1, some "widget", PyVal.int 10⟩ Reachable.empty)))

end OrderSvc

namespace NotifySvc

open OrderSvc (PyVal pyStrip)

/-- C9: the notification service accepts and stores every request whose
stripped message is non-empty — returning 201 and inserting `user_id`
and `order_id` exactly as given, with no validation or referential
check on them (including absent or ill-typed values) — and rejects
with HTTP 400 exactly when the stripped message is empty. -/
theorem claim_c9_notify_permissive (s : NStore) (now : String) (req : NotifyReq) :
    (pyStrip (req.message.getD "") ≠ "" →
      notify s now req
        = (NotifyResult.created
            ⟨s.nextId, req.user_id, req.order_id, pyStrip (req.message.getD ""), now⟩,
           ⟨s.nextId + 1, s.rows ++
            [⟨s.nextId, req.user_id, req.order_id, pyStrip (req.message.getD ""), now⟩]⟩) ∧
      (notify s now req).1.httpStatus = 201) ∧
    (pyStrip (req.message.getD "") = "" →
      notify s now req = (NotifyResult.badRequest "Field \x27message\x27 is required.", s) ∧
      (notify s now req).1.httpStatus = 400) := by
  constructor
  · intro h
    have heq : notify s now req
        = (NotifyResult.created
            ⟨s.nextId, req.user_id, req.order_id, pyStrip (req.message.getD ""), now⟩,
           ⟨s.nextId + 1, s.rows ++
            [⟨s.nextId, req.user_id, req.order_id, pyStrip (req.message.getD ""), now⟩]⟩) := by
      simp only [notify]
      rw [if_neg h]
    exact ⟨heq, by rw [heq]; rfl⟩
  · intro h
    have heq : notify s now req
        = (NotifyResult.badRequest "Field \x27message\x27 is required.", s) := by
      simp only [notify]
      rw [if_pos h]
    exact ⟨heq, by rw [heq]; rfl⟩

/-- Witness for C9: a missing `user_id` and an ill-typed `order_id` are
stored as given; a whitespace-only message is rejected. -/
theorem claim_c9_witness :
    (notify NStore.empty "t0" ⟨PyVal.none, PyVal.str "junk", some " hi "⟩
        = (NotifyResult.created ⟨1, PyVal.none, PyVal.str "junk", "hi", "t0"⟩,
           ⟨2, [⟨1, PyVal.none, PyVal.str "junk", "hi", "t0"⟩]⟩) ∧
      (notify NStore.empty "t0" ⟨PyVal.none, PyVal.str "junk", some " hi "⟩).1.httpStatus = 201) ∧
    (notify NStore.empty "t0" ⟨PyVal.int 1, PyVal.int 1, some "  "⟩
        = (NotifyResult.badRequest "Field \x27message\x27 is required.", NStore.empty) ∧
      (notify NStore.empty "t0" ⟨PyVal.int 1, PyVal.int 1, some "  "⟩).1.httpStatus = 400) :=
  ⟨(claim_c9_notify_permissive NStore.empty "t0" ⟨PyVal.none, PyVal.str "junk", some " hi "⟩).1
      (by decide),
   (claim_c9_notify_permissive NStore.empty "t0" ⟨PyVal.int 1, PyVal.int 1, some "  "⟩).2
      (by decide)⟩

end NotifySvc

namespace OrderSvc

/-- C10: on the successful-creation path, a delivered notification
(status 200 or 201) yields `notification_sent=true` and no
`notification_error` key; in general the response mirrors
`send_notification` through Python truthiness, so the
`notification_error` key is present exactly when `send_notification`
returns a non-empty error detail string. -/
theorem claim_c10_notification_error_key
    (s : Store) (now : String) (uc : HttpOutcome) (req : CreateReq) (uid amt : Int)
    (hfound : fetch_user uc = FetchResult.found)
    (hu : pyInt req.user_id = some uid) (ha : pyInt req.amount = some amt)
    (hamt : 0 < amt) (hitem : pyStrip (req.item.getD "") ≠ "") :
    (∀ c t, c = 200 ∨ c = 201 →
      (create_order s now uc (HttpOutcome.resp c t) req).1
        = CreateResult.created ⟨s.nextId, uid, pyStrip (req.item.getD ""), amt, "created", now⟩
            true Option.none) ∧
    (∀ nc, (create_order s now uc nc req).1
        = CreateResult.created ⟨s.nextId, uid, pyStrip (req.item.getD ""), amt, "created", now⟩
            (send_notification nc).1 (truthyStr (send_notification nc).2)) ∧
    (∀ (err : Option String) (e : String),
      truthyStr err = some e ↔ err = some e ∧ e ≠ "") := by
  refine ⟨?_, ?_, ?_⟩
  · intro c t hc
    rw [create_order_eq_found s now uc (HttpOutcome.resp c t) req uid amt
      hitem hu ha hamt hfound]
    have hsn : send_notification (HttpOutcome.resp c t) = (true, Option.none) := by
      rcases hc with hc | hc <;> simp [send_notification, hc]
    rw [hsn]
    rfl
  · intro nc
    rw [create_order_eq_found s now uc nc req uid amt hitem hu ha hamt hfound]
  · intro err e
    constructor
    · intro h
      cases err with
      | none => simp [truthyStr] at h
      | some x =>
        simp only [truthyStr] at h
        split at h
        · cases h
        · rename_i hx
          simp only [Option.some.injEq] at h
          subst h
          exact ⟨rfl, hx⟩
    · rintro ⟨h1, h2⟩
      rw [h1]
      simp [truthyStr, h2]

/-- Witness for C10 at a concrete valid request. -/
theorem claim_c10_witness :
    (∀ c t, c = 200 ∨ c = 201 →
      (create_order Store.empty "t0" (HttpOutcome.resp 200 "{}") (HttpOutcome.resp c t)
          ⟨PyVal.int 1, some "widget", PyVal.int 10⟩).1
        = CreateResult.created ⟨1, 1, "widget", 10, "created", "t0"⟩ true Option.none) ∧
    (∀ nc, (create_order Store.empty "t0" (HttpOutcome.resp 200 "{}") nc
          ⟨PyVal.int 1, some "widget", PyVal.int 10⟩).1
        = CreateResult.created ⟨1, 1, "widget", 10, "created", "t0"⟩
            (send_notification nc).1 (truthyStr (send_notification nc).2)) ∧
    (∀ (err : Option String) (e : String),
      truthyStr err = some e ↔ err = some e ∧ e ≠ "") :=
  claim_c10_notification_error_key Store.empty "t0" (HttpOutcome.resp 200 "{}")
    ⟨PyVal.int 1, some "widget", PyVal.int 10⟩ 1 10 (by decide) rfl rfl (by decide) (by decide)

end OrderSvc
